import Mathlib

/-!
Verification of the HTTP Negotiate authentication core of this repository
(`src/auth/negotiate.rs`, `src/auth/mod.rs`).

The Rust code is shallowly embedded:
* Rust strings and header values are modelled as lists of byte values
  (`List Nat`); `HeaderValue::to_str` only accepts visible-ASCII/space/tab
  bytes, so every accepted value is pure ASCII and byte indices coincide
  with character boundaries.
* the external request-execution capability (`execute_fn`) and the external
  SSPI security-context provider are modelled as oracles: functions from a
  call index (and the arguments the Rust code passes) to the result the
  environment returns;
* the orchestrator and the per-scheme handshake loops additionally return
  the number of requests issued so far and an event trace recording every
  `try_clone`, request execution, challenge parse and provider call, so
  that "no request is sent", "exactly one clone" etc. are statable;
* fallible Rust operations return `Option`/`Except`; a slice `&s[i..]`
  that Rust would panic on is modelled by a guarded slice returning `none`,
  and the parser propagates that `none` (totality of the parser is proved,
  so the panic branch is dead code).

The `#[cfg(windows)]` SSPI paths are part of the source and are modelled
as present (the windows configuration).
-/

namespace Negotiate

/-- Byte strings: each element is one byte value. -/
abbrev Bytes := List Nat

/-- `http::HeaderValue::to_str` accepts a byte iff it is visible ASCII,
space, or tab (`b == 9 || (32 <= b && b < 127)`). -/
def visibleAsciiOrTab (b : Nat) : Bool := b == 9 || (32 ≤ b && b < 127)

/-- Model of `HeaderValue::to_str(..).is_ok()`: every byte of the value is
visible ASCII, space or tab. -/
def toStrOk (v : Bytes) : Bool := v.all visibleAsciiOrTab

/-- The whitespace bytes that can occur in a `to_str`-accepted value
(only space and tab pass `toStrOk`; `str::trim` trims exactly these
there). -/
def isWsByte (b : Nat) : Bool := b == 9 || b == 32

/-- Model of `str::trim` on an ASCII byte string. -/
def trimBytes (v : Bytes) : Bytes :=
  ((v.dropWhile isWsByte).reverse.dropWhile isWsByte).reverse

/-- ASCII lowercasing of one byte. -/
def asciiLower (b : Nat) : Nat := if 65 ≤ b ∧ b ≤ 90 then b + 32 else b

/-- Model of `str::to_lowercase` on an ASCII byte string (Unicode
lowercasing agrees with ASCII lowercasing on ASCII input). -/
def lowerBytes (v : Bytes) : Bytes := v.map asciiLower

/-- Model of `str::eq_ignore_ascii_case`. -/
def eqIgnoreAsciiCase (a b : Bytes) : Bool := lowerBytes a == lowerBytes b

/-- Bytes of an ASCII string literal. -/
def strBytes (s : String) : Bytes := s.data.map Char.toNat

/-- Model of the Rust slice `&s[i..]`: defined only when the start index is
in bounds (on ASCII data every byte index is a character boundary, so the
bound check is the whole panic condition). -/
def sliceFrom (v : Bytes) (i : Nat) : Option Bytes :=
  if i ≤ v.length then some (v.drop i) else none

/-! ### base64 (the `base64::engine::general_purpose::STANDARD` engine) -/

/-- Value of one standard-alphabet base64 character, `none` for a byte
outside the alphabet (`'='` included). -/
def b64decVal (c : Nat) : Option Nat :=
  if 65 ≤ c ∧ c ≤ 90 then some (c - 65)
  else if 97 ≤ c ∧ c ≤ 122 then some (c - 97 + 26)
  else if 48 ≤ c ∧ c ≤ 57 then some (c - 48 + 52)
  else if c = 43 then some 62
  else if c = 47 then some 63
  else none

/-- `STANDARD.decode`: canonical padding required (length a multiple of 4,
`'='` only in the last block), trailing bits must be zero. -/
def b64decode : Bytes → Option Bytes
  | [] => some []
  | c1 :: c2 :: c3 :: c4 :: rest =>
    match b64decVal c1, b64decVal c2 with
    | some v1, some v2 =>
      if rest.isEmpty then
        if c3 = 61 then
          if c4 = 61 then
            if v2 % 16 = 0 then some [v1 * 4 + v2 / 16] else none
          else none
        else
          match b64decVal c3 with
          | some v3 =>
            if c4 = 61 then
              if v3 % 4 = 0 then some [v1 * 4 + v2 / 16, v2 % 16 * 16 + v3 / 4]
              else none
            else
              match b64decVal c4 with
              | some v4 =>
                some [v1 * 4 + v2 / 16, v2 % 16 * 16 + v3 / 4, v3 % 4 * 64 + v4]
              | none => none
          | none => none
      else
        match b64decVal c3, b64decVal c4 with
        | some v3, some v4 =>
          match b64decode rest with
          | some ds =>
            some ([v1 * 4 + v2 / 16, v2 % 16 * 16 + v3 / 4, v3 % 4 * 64 + v4] ++ ds)
          | none => none
        | _, _ => none
    | _, _ => none
  | _ => none

/-- Character of one 6-bit value in the standard base64 alphabet. -/
def b64char (i : Nat) : Nat :=
  if i < 26 then 65 + i
  else if i < 52 then 97 + (i - 26)
  else if i < 62 then 48 + (i - 52)
  else if i = 62 then 43
  else 47

/-- `STANDARD.encode` (padded). -/
def b64encode : Bytes → Bytes
  | a :: b :: c :: rest =>
    b64char (a / 4) :: b64char (a % 4 * 16 + b / 16) ::
      b64char (b % 16 * 4 + c / 64) :: b64char (c % 64) :: b64encode rest
  | [a, b] => [b64char (a / 4), b64char (a % 4 * 16 + b / 16), b64char (b % 16 * 4), 61]
  | [a] => [b64char (a / 4), b64char (a % 4 * 16), 61, 61]
  | [] => []

/-! ### Challenge parsing (`parse_www_authenticate`) -/

/-- Result of `parse_www_authenticate`: the Rust function returns the tuple
`(negotiate_token, ntlm_token, has_basic)`. -/
abbrev ChallengeSet := Option (Option Bytes) × Option (Option Bytes) × Bool

/-- Processing of one `WWW-Authenticate` header value (one iteration of the
`for` loop of `parse_www_authenticate`); `none` models a Rust panic from an
out-of-bounds slice. -/
def parseStep (acc : ChallengeSet) (v : Bytes) : Option ChallengeSet :=
  if toStrOk v then
    let trimmed := trimBytes v
    if eqIgnoreAsciiCase trimmed (strBytes "negotiate") then
      some (some none, acc.2.1, acc.2.2)
    else if (strBytes "negotiate ").isPrefixOf (lowerBytes trimmed) then
      match sliceFrom trimmed 10 with
      | none => none
      | some rest =>
        match b64decode (trimBytes rest) with
        | some decoded => some (some (some decoded), acc.2.1, acc.2.2)
        | none => some acc
    else if eqIgnoreAsciiCase trimmed (strBytes "ntlm") then
      some (acc.1, some none, acc.2.2)
    else if (strBytes "ntlm ").isPrefixOf (lowerBytes trimmed) then
      match sliceFrom trimmed 5 with
      | none => none
      | some rest =>
        match b64decode (trimBytes rest) with
        | some decoded => some (acc.1, some (some decoded), acc.2.2)
        | none => some acc
    else if (strBytes "basic").isPrefixOf (lowerBytes trimmed) then
      some (acc.1, acc.2.1, true)
    else some acc
  else some acc

/-- The `for` loop of `parse_www_authenticate` over all header values. -/
def parseList (acc : ChallengeSet) : List Bytes → Option ChallengeSet
  | [] => some acc
  | v :: vs =>
    match parseStep acc v with
    | none => none
    | some acc' => parseList acc' vs

/-- `parse_www_authenticate`, over the list of `WWW-Authenticate` header
values of a response (`headers.get_all(WWW_AUTHENTICATE)` in order). -/
def parse_www_authenticate (headers : List Bytes) : Option ChallengeSet :=
  parseList (none, none, false) headers

/-! ### Data model: URLs, requests, responses, credentials, errors -/

/-- The interface of `url::Url` that the core consumes: `host_str()`
(which excludes the port), plus the components an SPN must not contain.
The `url` crate is an external collaborator; only this interface is
relevant. -/
structure Url where
  scheme : String
  host : Option String
  port : Option Nat
  path : String
  deriving DecidableEq, Repr

/-- The interface of `reqwest::Request` the core consumes: the URL, the
header map, and replayability of the body (`try_clone` succeeds iff the
body is replayable; a clone of a replayable request is replayable). -/
structure Request where
  url : Url
  headers : List (String × Bytes)
  replayable : Bool
  deriving DecidableEq, Repr

/-- `Request::try_clone`. -/
def tryClone (r : Request) : Option Request :=
  if r.replayable then some r else none

/-- `HeaderMap::insert`: sets the header, replacing any previous value. -/
def insertHeader (r : Request) (name : String) (v : Bytes) : Request :=
  { r with headers := (name, v) :: r.headers.filter (fun p => p.1 ≠ name) }

/-- `HeaderValue::from_str`: accepts a byte iff it is tab or in
`32..=126` or an extension byte (never below 32, never DEL). -/
def headerByteOk (b : Nat) : Bool := b == 9 || (32 ≤ b && b ≠ 127)

/-- Model of `HeaderValue::from_str`. -/
def headerValueFromBytes (v : Bytes) : Option Bytes :=
  if v.all headerByteOk then some v else none

/-- The interface of `reqwest::Response` the core consumes: status code and
the `WWW-Authenticate` header values, in order. -/
structure Response where
  status : Nat
  wwwAuthenticate : List Bytes
  deriving DecidableEq, Repr

/-- `StatusCode::is_success()`. -/
def isSuccess (status : Nat) : Bool := 200 ≤ status && status ≤ 299

/-- `Credentials` from `src/auth/mod.rs` (strings modelled as UTF-8 byte
lists). -/
inductive Credentials where
  | currentUser
  | explicit (username password : Bytes)
  deriving DecidableEq, Repr

/-- The distinct `crate::error::negotiate(..)` error messages produced by
the core (plus transport errors from `execute_fn`, propagated by `?`).
`panicked` models a Rust panic; it is proved unreachable. -/
inductive NegError where
  | notReplayable
  | notClonable
  | invalidHeader
  | sspiAcquireFailed (code : Nat)
  | sspiInitFailed (code : Nat)
  | tooManyRoundtrips
  | noNewChallengeToken
  | allMethodsFailed
  | spnNoHost
  | transport (e : String)
  | panicked
  deriving DecidableEq, Repr

/-- Observable actions of the orchestrator: request cloning, request
execution, challenge parsing, and provider calls. -/
inductive Event where
  | cloneAttempt (ok : Bool)
  | sent (r : Request)
  | parsed
  | acquire (scheme : String)
  | initContext (scheme : String)
  deriving DecidableEq, Repr

/-- `true` exactly on request-execution events. -/
def Event.isSent : Event → Bool
  | .sent _ => true
  | _ => false

/-- Number of requests executed in a trace. -/
def sentCount (evs : List Event) : Nat := (evs.filter Event.isSent).length

/-- Result of a stage of the orchestrator: outcome, next request index,
event trace. -/
abbrev StageResult := Except NegError Response × Nat × List Event

/-- Prepend already-recorded events to a stage result. -/
def withEvents (evs : List Event) : StageResult → StageResult
  | (r, n, es) => (r, n, evs ++ es)

/-- Oracle for the request-execution capability `execute_fn`: the result of
the `k`-th executed request (0-based, counted across the whole
orchestration call). -/
abbrev Exec := Nat → Request → Except String Response

/-- Oracle for one `SspiContext` (the external SSPI provider):
`acquire_credentials`, and `initialize_context` indexed by the call number
within the attempt, receiving the SPN and the optional input token and
returning the output token and the completion flag. -/
structure SspiBehavior where
  acquire : Credentials → Except Nat Unit
  initCtx : Nat → String → Option Bytes → Except Nat (Bytes × Bool)

/-- The SSPI provider: behavior of `SspiContext::new("Negotiate")` and of
`SspiContext::new("NTLM")` for this call. -/
structure Provider where
  negotiate : SspiBehavior
  ntlm : SspiBehavior

/-! ### SPN derivation (`derive_spn`) -/

/-- `derive_spn`: `"HTTP/" + url.host_str()`, failing when the URL has no
host. -/
def derive_spn (url : Url) : Except NegError String :=
  match url.host with
  | none => .error .spnNoHost
  | some host => .ok ("HTTP/" ++ host)

/-! ### The per-scheme handshake loops (`try_negotiate_auth`, `try_ntlm_auth`) -/

def MAX_ROUNDTRIPS : Nat := 5

/-- The `loop` of `try_negotiate_auth`, entered with `round = 0`,
`input_token = None`. `n` is the number of requests executed so far in the
whole call (index into the `Exec` oracle). Mirrors the Rust body statement
by statement; the success branch re-parses the challenge headers for the
mutual-authentication token (which is only logged). -/
def negotiateLoop (beh : SspiBehavior) (exec : Exec) (orig : Request) (spn : String)
    (round : Nat) (inputToken : Option Bytes) (n : Nat) : StageResult :=
  if MAX_ROUNDTRIPS ≤ round then (.error .tooManyRoundtrips, n, [])
  else
    match beh.initCtx round spn inputToken with
    | .error code => (.error (.sspiInitFailed code), n, [.initContext "Negotiate"])
    | .ok (outputToken, _isComplete) =>
      let tokenBase64 := b64encode outputToken
      match tryClone orig with
      | none =>
        (.error .notClonable, n, [.initContext "Negotiate", .cloneAttempt false])
      | some cloned =>
        match headerValueFromBytes (strBytes "Negotiate " ++ tokenBase64) with
        | none =>
          (.error .invalidHeader, n, [.initContext "Negotiate", .cloneAttempt true])
        | some hv =>
          let authRequest := insertHeader cloned "authorization" hv
          let evs := [Event.initContext "Negotiate", .cloneAttempt true, .sent authRequest]
          match exec n authRequest with
          | .error e => (.error (.transport e), n + 1, evs)
          | .ok response =>
            if response.status = 401 then
              match parse_www_authenticate response.wwwAuthenticate with
              | none => (.error .panicked, n + 1, evs ++ [.parsed])
              | some (negotiateToken, _, _) =>
                match negotiateToken with
                | some (some serverToken) =>
                  withEvents (evs ++ [.parsed])
                    (negotiateLoop beh exec orig spn (round + 1) (some serverToken) (n + 1))
                | _ => (.error .noNewChallengeToken, n + 1, evs ++ [.parsed])
            else if isSuccess response.status then
              match parse_www_authenticate response.wwwAuthenticate with
              | none => (.error .panicked, n + 1, evs ++ [.parsed])
              | some _ => (.ok response, n + 1, evs ++ [.parsed])
            else
              (.ok response, n + 1, evs)
  termination_by MAX_ROUNDTRIPS - round
  decreasing_by simp [MAX_ROUNDTRIPS] at *; omega

/-- `try_negotiate_auth`: create the Negotiate SSPI context, acquire
credentials, run the loop from round 0 with no input token. -/
def try_negotiate_auth (beh : SspiBehavior) (exec : Exec) (orig : Request) (spn : String)
    (creds : Credentials) (n : Nat) : StageResult :=
  match beh.acquire creds with
  | .error code => (.error (.sspiAcquireFailed code), n, [.acquire "Negotiate"])
  | .ok _ => withEvents [.acquire "Negotiate"] (negotiateLoop beh exec orig spn 0 none n)

/-- The `loop` of `try_ntlm_auth`; identical to `negotiateLoop` except for
the scheme name, the `ChallengeSet` component consulted on 401, and the
absence of the mutual-authentication re-parse on success. -/
def ntlmLoop (beh : SspiBehavior) (exec : Exec) (orig : Request) (spn : String)
    (round : Nat) (inputToken : Option Bytes) (n : Nat) : StageResult :=
  if MAX_ROUNDTRIPS ≤ round then (.error .tooManyRoundtrips, n, [])
  else
    match beh.initCtx round spn inputToken with
    | .error code => (.error (.sspiInitFailed code), n, [.initContext "NTLM"])
    | .ok (outputToken, _isComplete) =>
      let tokenBase64 := b64encode outputToken
      match tryClone orig with
      | none =>
        (.error .notClonable, n, [.initContext "NTLM", .cloneAttempt false])
      | some cloned =>
        match headerValueFromBytes (strBytes "NTLM " ++ tokenBase64) with
        | none =>
          (.error .invalidHeader, n, [.initContext "NTLM", .cloneAttempt true])
        | some hv =>
          let authRequest := insertHeader cloned "authorization" hv
          let evs := [Event.initContext "NTLM", .cloneAttempt true, .sent authRequest]
          match exec n authRequest with
          | .error e => (.error (.transport e), n + 1, evs)
          | .ok response =>
            if response.status = 401 then
              match parse_www_authenticate response.wwwAuthenticate with
              | none => (.error .panicked, n + 1, evs ++ [.parsed])
              | some (_, ntlmToken, _) =>
                match ntlmToken with
                | some (some serverToken) =>
                  withEvents (evs ++ [.parsed])
                    (ntlmLoop beh exec orig spn (round + 1) (some serverToken) (n + 1))
                | _ => (.error .noNewChallengeToken, n + 1, evs ++ [.parsed])
            else if isSuccess response.status then
              (.ok response, n + 1, evs)
            else
              (.ok response, n + 1, evs)
  termination_by MAX_ROUNDTRIPS - round
  decreasing_by simp [MAX_ROUNDTRIPS] at *; omega

/-- `try_ntlm_auth`. -/
def try_ntlm_auth (beh : SspiBehavior) (exec : Exec) (orig : Request) (spn : String)
    (creds : Credentials) (n : Nat) : StageResult :=
  match beh.acquire creds with
  | .error code => (.error (.sspiAcquireFailed code), n, [.acquire "NTLM"])
  | .ok _ => withEvents [.acquire "NTLM"] (ntlmLoop beh exec orig spn 0 none n)

/-- `try_basic_auth`: single attempt, `Authorization: Basic
base64(username ++ ":" ++ password)`, response (or transport error)
returned verbatim. -/
def try_basic_auth (exec : Exec) (orig : Request) (username password : Bytes)
    (n : Nat) : StageResult :=
  let credentials := username ++ strBytes ":" ++ password
  let encoded := b64encode credentials
  match tryClone orig with
  | none => (.error .notClonable, n, [.cloneAttempt false])
  | some cloned =>
    match headerValueFromBytes (strBytes "Basic " ++ encoded) with
    | none => (.error .invalidHeader, n, [.cloneAttempt true])
    | some hv =>
      let authRequest := insertHeader cloned "authorization" hv
      match exec n authRequest with
      | .error e => (.error (.transport e), n + 1, [.cloneAttempt true, .sent authRequest])
      | .ok response => (.ok response, n + 1, [.cloneAttempt true, .sent authRequest])

/-! ### The orchestrator (`execute_with_negotiate`) -/

/-- Step 3 of the fallback chain: Basic, only when offered and credentials
are `Explicit`; otherwise `AllMethodsFailed`. `acc` is the trace recorded
so far. -/
def basicStage (exec : Exec) (orig : Request) (creds : Credentials) (hasBasic : Bool)
    (n : Nat) (acc : List Event) : StageResult :=
  if hasBasic then
    match creds with
    | .explicit username password =>
      withEvents acc (try_basic_auth exec orig username password n)
    | .currentUser => (.error .allMethodsFailed, n, acc)
  else (.error .allMethodsFailed, n, acc)

/-- Step 2 of the fallback chain: NTLM if offered; an `Ok` response ends
the call, an error falls through to Basic. -/
def ntlmStage (prov : Provider) (exec : Exec) (orig : Request) (spn : String)
    (creds : Credentials) (ntlmChallenge : Option (Option Bytes)) (hasBasic : Bool)
    (n : Nat) (acc : List Event) : StageResult :=
  if ntlmChallenge.isSome then
    match try_ntlm_auth prov.ntlm exec orig spn creds n with
    | (.ok r, n', evs) => (.ok r, n', acc ++ evs)
    | (.error _, n', evs) => basicStage exec orig creds hasBasic n' (acc ++ evs)
  else basicStage exec orig creds hasBasic n acc

/-- Step 1 of the fallback chain: Negotiate if offered; an `Ok` response
ends the call, an error falls through to NTLM. -/
def negotiateStage (prov : Provider) (exec : Exec) (orig : Request) (spn : String)
    (creds : Credentials) (negotiateChallenge ntlmChallenge : Option (Option Bytes))
    (hasBasic : Bool) (n : Nat) (acc : List Event) : StageResult :=
  if negotiateChallenge.isSome then
    match try_negotiate_auth prov.negotiate exec orig spn creds n with
    | (.ok r, n', evs) => (.ok r, n', acc ++ evs)
    | (.error _, n', evs) =>
      ntlmStage prov exec orig spn creds ntlmChallenge hasBasic n' (acc ++ evs)
  else ntlmStage prov exec orig spn creds ntlmChallenge hasBasic n acc

/-- `execute_with_negotiate`: clone the template, send the original request,
return non-401 responses unchanged, otherwise parse challenges, derive the
SPN and run the fallback chain Negotiate → NTLM → Basic. -/
def execute_with_negotiate (prov : Provider) (exec : Exec) (request : Request)
    (creds : Credentials) : StageResult :=
  match tryClone request with
  | none => (.error .notReplayable, 0, [.cloneAttempt false])
  | some originalRequest =>
    match exec 0 request with
    | .error e => (.error (.transport e), 1, [.cloneAttempt true, .sent request])
    | .ok response =>
      if response.status ≠ 401 then
        (.ok response, 1, [.cloneAttempt true, .sent request])
      else
        match parse_www_authenticate response.wwwAuthenticate with
        | none => (.error .panicked, 1, [.cloneAttempt true, .sent request, .parsed])
        | some (negotiateChallenge, ntlmChallenge, hasBasic) =>
          match derive_spn originalRequest.url with
          | .error e =>
            (.error e, 1, [.cloneAttempt true, .sent request, .parsed])
          | .ok spn =>
            negotiateStage prov exec originalRequest spn creds
              negotiateChallenge ntlmChallenge hasBasic 1
              [.cloneAttempt true, .sent request, .parsed]

/-! ### Spec-side description of the fallback chain -/

/-- Candidate authentication schemes, in the spec's fallback order. -/
inductive Scheme where
  | negotiateScheme
  | ntlmScheme
  | basicScheme
  deriving DecidableEq, Repr

/-- Whether credentials are `Explicit`. -/
def Credentials.isExplicit : Credentials → Bool
  | .explicit _ _ => true
  | .currentUser => false

/-- Modelled from the claim's words: the candidate list in fixed priority
order — Negotiate if offered, then NTLM if offered, then Basic if offered
and credentials are explicit. -/
def specCandidates (negCh ntlmCh : Option (Option Bytes)) (hasBasic : Bool)
    (creds : Credentials) : List Scheme :=
  (if negCh.isSome then [Scheme.negotiateScheme] else []) ++
    (if ntlmCh.isSome then [Scheme.ntlmScheme] else []) ++
    (if hasBasic && creds.isExplicit then [Scheme.basicScheme] else [])

/-- Modelled from the amended claim's words: run the candidates in order;
a Negotiate or NTLM attempt that errs falls through to the next candidate,
a Basic attempt is final and its result is returned verbatim, and an
exhausted list fails with `AllMethodsFailed`. -/
def specRunCandidates (prov : Provider) (exec : Exec) (orig : Request) (spn : String)
    (creds : Credentials) : List Scheme → Nat → List Event → StageResult
  | [], n, acc => (.error .allMethodsFailed, n, acc)
  | .negotiateScheme :: rest, n, acc =>
    match try_negotiate_auth prov.negotiate exec orig spn creds n with
    | (.ok r, n', evs) => (.ok r, n', acc ++ evs)
    | (.error _, n', evs) => specRunCandidates prov exec orig spn creds rest n' (acc ++ evs)
  | .ntlmScheme :: rest, n, acc =>
    match try_ntlm_auth prov.ntlm exec orig spn creds n with
    | (.ok r, n', evs) => (.ok r, n', acc ++ evs)
    | (.error _, n', evs) => specRunCandidates prov exec orig spn creds rest n' (acc ++ evs)
  | .basicScheme :: _, n, acc =>
    match creds with
    | .explicit username password => withEvents acc (try_basic_auth exec orig username password n)
    | .currentUser => (.error .allMethodsFailed, n, acc)

/-- The authenticated request a loop iteration sends. -/
def authRequest (orig : Request) (scheme : String) (outputToken : Bytes) : Request :=
  insertHeader orig "authorization" (strBytes (scheme ++ " ") ++ b64encode outputToken)

/-! ### Concrete test fixtures (environments for witnesses and
counterexamples) -/

/-- An SSPI oracle that always succeeds, producing empty tokens. -/
def sampleBeh : SspiBehavior := ⟨fun _ => .ok (), fun _ _ _ => .ok ([], true)⟩

def sampleProv : Provider := ⟨sampleBeh, sampleBeh⟩

/-- A replayable GET-like request. -/
def sampleReq : Request := ⟨⟨"http", some "example.com", none, "/"⟩, [], true⟩

/-- A server that always answers 401 with a fresh Negotiate token. -/
def negChallengeExec : Exec := fun _ _ => .ok ⟨401, [strBytes "Negotiate AAAA"]⟩

/-- A server that always answers 401 with a fresh NTLM token. -/
def ntlmChallengeExec : Exec := fun _ _ => .ok ⟨401, [strBytes "NTLM AAAA"]⟩

/-- A server that offers only Basic on the first request and accepts the
second. -/
def basicOnlyExec : Exec := fun n _ =>
  if n = 0 then .ok ⟨401, [strBytes "Basic realm=\"x\""]⟩ else .ok ⟨200, []⟩

/-- A server that offers only Basic on the first request and then fails at
the transport level. -/
def basicOnlyBrokenExec : Exec := fun n _ =>
  if n = 0 then .ok ⟨401, [strBytes "Basic realm=\"x\""]⟩
  else .error "connection reset"

/-! ### Parser lemmas -/

theorem lowerBytes_length (v : Bytes) : (lowerBytes v).length = v.length := by
  simp [lowerBytes]

theorem prefix_length_le {p v : Bytes} (h : p.isPrefixOf (lowerBytes v) = true) :
    p.length ≤ v.length := by
  have h1 := (List.isPrefixOf_iff_prefix.mp h).length_le
  simpa [lowerBytes] using h1

theorem sliceFrom_of_le {v : Bytes} {i : Nat} (h : i ≤ v.length) :
    sliceFrom v i = some (v.drop i) := by
  simp [sliceFrom, h]

/-- The guarded slice after the `negotiate ` check always succeeds. -/
theorem sliceFrom_negotiate {v : Bytes}
    (h : (strBytes "negotiate ").isPrefixOf (lowerBytes (trimBytes v)) = true) :
    sliceFrom (trimBytes v) 10 = some ((trimBytes v).drop 10) := by
  have h1 := prefix_length_le h
  have h2 : (strBytes "negotiate ").length = 10 := by decide
  exact sliceFrom_of_le (by omega)

/-- The guarded slice after the `ntlm ` check always succeeds. -/
theorem sliceFrom_ntlm {v : Bytes}
    (h : (strBytes "ntlm ").isPrefixOf (lowerBytes (trimBytes v)) = true) :
    sliceFrom (trimBytes v) 5 = some ((trimBytes v).drop 5) := by
  have h1 := prefix_length_le h
  have h2 : (strBytes "ntlm ").length = 5 := by decide
  exact sliceFrom_of_le (by omega)

/-- One parser iteration never panics. -/
theorem parseStep_isSome (acc : ChallengeSet) (v : Bytes) :
    (parseStep acc v).isSome = true := by
  unfold parseStep
  by_cases h1 : toStrOk v
  · simp only [h1, if_true]
    by_cases h2 : eqIgnoreAsciiCase (trimBytes v) (strBytes "negotiate")
    · simp [h2]
    · by_cases h3 : (strBytes "negotiate ").isPrefixOf (lowerBytes (trimBytes v))
      · simp only [h2, h3, if_false, if_true, sliceFrom_negotiate h3]
        cases b64decode (trimBytes ((trimBytes v).drop 10)) <;> simp
      · by_cases h4 : eqIgnoreAsciiCase (trimBytes v) (strBytes "ntlm")
        · simp [h2, h3, h4]
        · by_cases h5 : (strBytes "ntlm ").isPrefixOf (lowerBytes (trimBytes v))
          · simp only [h2, h3, h4, h5, if_false, if_true, sliceFrom_ntlm h5]
            cases b64decode (trimBytes ((trimBytes v).drop 5)) <;> simp
          · by_cases h6 : (strBytes "basic").isPrefixOf (lowerBytes (trimBytes v))
            · simp [h2, h3, h4, h5, h6]
            · simp [h2, h3, h4, h5, h6]
  · simp [h1]

/-- The full parser never panics. -/
theorem parseList_isSome (acc : ChallengeSet) (vs : List Bytes) :
    (parseList acc vs).isSome = true := by
  induction vs generalizing acc with
  | nil => simp [parseList]
  | cons v vs ih =>
    have h := parseStep_isSome acc v
    unfold parseList
    cases hs : parseStep acc v with
    | none => rw [hs] at h; simp at h
    | some acc' => exact ih acc'

theorem parse_www_authenticate_isSome (headers : List Bytes) :
    (parse_www_authenticate headers).isSome = true :=
  parseList_isSome _ headers

/-- Processing a concatenation of header lists is sequential. -/
theorem parseList_append (acc : ChallengeSet) (xs ys : List Bytes) :
    parseList acc (xs ++ ys) =
      match parseList acc xs with
      | none => none
      | some acc' => parseList acc' ys := by
  induction xs generalizing acc with
  | nil => simp [parseList]
  | cons v vs ih =>
    simp only [List.cons_append, parseList]
    cases parseStep acc v <;> simp [ih]

/-- A value every accumulator passes through unchanged can be spliced out. -/
theorem parseList_splice {v : Bytes} (hskip : ∀ acc, parseStep acc v = some acc)
    (acc : ChallengeSet) (xs ys : List Bytes) :
    parseList acc (xs ++ v :: ys) = parseList acc (xs ++ ys) := by
  rw [parseList_append, parseList_append]
  cases parseList acc xs with
  | none => rfl
  | some acc' => simp [parseList, hskip acc']

/-- A value whose lowercased trim has `negotiate ` as a prefix is at least
10 bytes long, hence cannot case-insensitively equal `negotiate`. -/
theorem not_bare_negotiate_of_tokenForm {v : Bytes}
    (h : (strBytes "negotiate ").isPrefixOf (lowerBytes (trimBytes v)) = true) :
    eqIgnoreAsciiCase (trimBytes v) (strBytes "negotiate") = false := by
  have h1 := prefix_length_le h
  have h2 : (strBytes "negotiate ").length = 10 := by decide
  by_contra hc
  rw [Bool.not_eq_false, eqIgnoreAsciiCase, beq_iff_eq] at hc
  have h3 := congrArg List.length hc
  rw [lowerBytes_length, lowerBytes_length] at h3
  have h4 : (strBytes "negotiate").length = 9 := by decide
  omega

/-- Same for `ntlm ` versus bare `ntlm`. -/
theorem not_bare_ntlm_of_tokenForm {v : Bytes}
    (h : (strBytes "ntlm ").isPrefixOf (lowerBytes (trimBytes v)) = true) :
    eqIgnoreAsciiCase (trimBytes v) (strBytes "ntlm") = false := by
  have h1 := prefix_length_le h
  have h2 : (strBytes "ntlm ").length = 5 := by decide
  by_contra hc
  rw [Bool.not_eq_false, eqIgnoreAsciiCase, beq_iff_eq] at hc
  have h3 := congrArg List.length hc
  rw [lowerBytes_length, lowerBytes_length] at h3
  have h4 : (strBytes "ntlm").length = 4 := by decide
  omega

/-- Bare `Negotiate` occurrence: overwrites the negotiate field with
`Some(None)`, whatever it held. -/
theorem parseStep_bare_negotiate {v : Bytes} (acc : ChallengeSet)
    (h1 : toStrOk v = true)
    (h2 : eqIgnoreAsciiCase (trimBytes v) (strBytes "negotiate") = true) :
    parseStep acc v = some (some none, acc.2.1, acc.2.2) := by
  unfold parseStep
  simp [h1, h2]

/-- `Negotiate <token>` occurrence with a well-formed token: overwrites the
negotiate field with `Some(Some(decoded))`. -/
theorem parseStep_negotiate_token {v : Bytes} {d : Bytes} (acc : ChallengeSet)
    (h1 : toStrOk v = true)
    (h3 : (strBytes "negotiate ").isPrefixOf (lowerBytes (trimBytes v)) = true)
    (hd : b64decode (trimBytes ((trimBytes v).drop 10)) = some d) :
    parseStep acc v = some (some (some d), acc.2.1, acc.2.2) := by
  unfold parseStep
  simp [h1, not_bare_negotiate_of_tokenForm h3, h3, sliceFrom_negotiate h3, hd]

/-- `Negotiate <token>` occurrence with a malformed token: the accumulator
passes through unchanged. -/
theorem parseStep_negotiate_malformed {v : Bytes} (acc : ChallengeSet)
    (h1 : toStrOk v = true)
    (h3 : (strBytes "negotiate ").isPrefixOf (lowerBytes (trimBytes v)) = true)
    (hd : b64decode (trimBytes ((trimBytes v).drop 10)) = none) :
    parseStep acc v = some acc := by
  unfold parseStep
  simp [h1, not_bare_negotiate_of_tokenForm h3, h3, sliceFrom_negotiate h3, hd]

/-- `NTLM <token>` occurrence with a well-formed token. -/
theorem parseStep_ntlm_token {v : Bytes} {d : Bytes} (acc : ChallengeSet)
    (h1 : toStrOk v = true)
    (hn2 : eqIgnoreAsciiCase (trimBytes v) (strBytes "negotiate") = false)
    (hn3 : (strBytes "negotiate ").isPrefixOf (lowerBytes (trimBytes v)) = false)
    (h5 : (strBytes "ntlm ").isPrefixOf (lowerBytes (trimBytes v)) = true)
    (hd : b64decode (trimBytes ((trimBytes v).drop 5)) = some d) :
    parseStep acc v = some (acc.1, some (some d), acc.2.2) := by
  unfold parseStep
  simp [h1, hn2, hn3, not_bare_ntlm_of_tokenForm h5, h5, sliceFrom_ntlm h5, hd]

/-- `NTLM <token>` occurrence with a malformed token: the accumulator
passes through unchanged. -/
theorem parseStep_ntlm_malformed {v : Bytes} (acc : ChallengeSet)
    (h1 : toStrOk v = true)
    (hn2 : eqIgnoreAsciiCase (trimBytes v) (strBytes "negotiate") = false)
    (hn3 : (strBytes "negotiate ").isPrefixOf (lowerBytes (trimBytes v)) = false)
    (h5 : (strBytes "ntlm ").isPrefixOf (lowerBytes (trimBytes v)) = true)
    (hd : b64decode (trimBytes ((trimBytes v).drop 5)) = none) :
    parseStep acc v = some acc := by
  unfold parseStep
  simp [h1, hn2, hn3, not_bare_ntlm_of_tokenForm h5, h5, sliceFrom_ntlm h5, hd]

/-- A value matching none of the five checks passes the accumulator through
unchanged. -/
theorem parseStep_unrecognized {v : Bytes} (acc : ChallengeSet)
    (h1 : toStrOk v = true)
    (h2 : eqIgnoreAsciiCase (trimBytes v) (strBytes "negotiate") = false)
    (h3 : (strBytes "negotiate ").isPrefixOf (lowerBytes (trimBytes v)) = false)
    (h4 : eqIgnoreAsciiCase (trimBytes v) (strBytes "ntlm") = false)
    (h5 : (strBytes "ntlm ").isPrefixOf (lowerBytes (trimBytes v)) = false)
    (h6 : (strBytes "basic").isPrefixOf (lowerBytes (trimBytes v)) = false) :
    parseStep acc v = some acc := by
  unfold parseStep
  simp [h1, h2, h3, h4, h5, h6]

/-! ### Authorization header construction never fails -/

theorem b64char_ge (i : Nat) : 32 ≤ b64char i := by
  unfold b64char
  split_ifs <;> omega

theorem b64char_ne127 (i : Nat) : b64char i ≠ 127 := by
  unfold b64char
  split_ifs <;> omega

theorem b64encode_ok (bs : Bytes) : (b64encode bs).all headerByteOk = true := by
  induction bs using b64encode.induct <;>
    simp_all [b64encode, headerByteOk, b64char_ge, b64char_ne127]

/-- `HeaderValue::from_str` succeeds on `<scheme> <base64token>` values. -/
theorem headerValue_auth_ok (s : String) (hs : (strBytes s).all headerByteOk = true)
    (t : Bytes) :
    headerValueFromBytes (strBytes s ++ b64encode t) = some (strBytes s ++ b64encode t) := by
  unfold headerValueFromBytes
  simp [List.all_append, hs, b64encode_ok]

theorem sentCount_append (a b : List Event) :
    sentCount (a ++ b) = sentCount a + sentCount b := by
  simp [sentCount, List.filter_append]

/-! ### Handshake loop lemmas -/

/-- Reaching the round bound fails with `TooManyRoundtrips`, with no
provider call and no request issued. -/
theorem negotiateLoop_terminal (beh : SspiBehavior) (exec : Exec) (orig : Request)
    (spn : String) (round : Nat) (input : Option Bytes) (n : Nat)
    (h : MAX_ROUNDTRIPS ≤ round) :
    negotiateLoop beh exec orig spn round input n = (.error .tooManyRoundtrips, n, []) := by
  rw [negotiateLoop]
  simp [h]

theorem ntlmLoop_terminal (beh : SspiBehavior) (exec : Exec) (orig : Request)
    (spn : String) (round : Nat) (input : Option Bytes) (n : Nat)
    (h : MAX_ROUNDTRIPS ≤ round) :
    ntlmLoop beh exec orig spn round input n = (.error .tooManyRoundtrips, n, []) := by
  rw [ntlmLoop]
  simp [h]

/-- A 401 answer carrying a fresh Negotiate token advances the loop by
exactly one round and one request. -/
theorem negotiateLoop_step (beh : SspiBehavior) (exec : Exec) (orig : Request)
    (spn : String) (round : Nat) (input : Option Bytes) (n : Nat)
    (outputToken : Bytes) (flag : Bool) (resp : Response) (t : Bytes)
    (x2 : Option (Option Bytes)) (x3 : Bool)
    (hround : round < MAX_ROUNDTRIPS)
    (hinit : beh.initCtx round spn input = .ok (outputToken, flag))
    (hrep : orig.replayable = true)
    (hexec : exec n (authRequest orig "Negotiate" outputToken) = .ok resp)
    (hstat : resp.status = 401)
    (hparse : parse_www_authenticate resp.wwwAuthenticate = some (some (some t), x2, x3)) :
    negotiateLoop beh exec orig spn round input n =
      withEvents [.initContext "Negotiate", .cloneAttempt true,
          .sent (authRequest orig "Negotiate" outputToken), .parsed]
        (negotiateLoop beh exec orig spn (round + 1) (some t) (n + 1)) := by
  have hb : ¬ MAX_ROUNDTRIPS ≤ round := by omega
  have hhv := headerValue_auth_ok "Negotiate " (by decide) outputToken
  rw [negotiateLoop]
  simp only [hb, if_false, hinit, tryClone, hrep, if_true, hhv]
  have hauth : insertHeader orig "authorization" (strBytes "Negotiate " ++ b64encode outputToken) =
      authRequest orig "Negotiate" outputToken := rfl
  rw [hauth]
  simp only [hexec, hstat, if_true, hparse]
  rfl

/-- A 401 answer carrying a fresh NTLM token advances the loop by exactly
one round and one request. -/
theorem ntlmLoop_step (beh : SspiBehavior) (exec : Exec) (orig : Request)
    (spn : String) (round : Nat) (input : Option Bytes) (n : Nat)
    (outputToken : Bytes) (flag : Bool) (resp : Response) (t : Bytes)
    (x1 : Option (Option Bytes)) (x3 : Bool)
    (hround : round < MAX_ROUNDTRIPS)
    (hinit : beh.initCtx round spn input = .ok (outputToken, flag))
    (hrep : orig.replayable = true)
    (hexec : exec n (authRequest orig "NTLM" outputToken) = .ok resp)
    (hstat : resp.status = 401)
    (hparse : parse_www_authenticate resp.wwwAuthenticate = some (x1, some (some t), x3)) :
    ntlmLoop beh exec orig spn round input n =
      withEvents [.initContext "NTLM", .cloneAttempt true,
          .sent (authRequest orig "NTLM" outputToken), .parsed]
        (ntlmLoop beh exec orig spn (round + 1) (some t) (n + 1)) := by
  have hb : ¬ MAX_ROUNDTRIPS ≤ round := by omega
  have hhv := headerValue_auth_ok "NTLM " (by decide) outputToken
  rw [ntlmLoop]
  simp only [hb, if_false, hinit, tryClone, hrep, if_true, hhv]
  have hauth : insertHeader orig "authorization" (strBytes "NTLM " ++ b64encode outputToken) =
      authRequest orig "NTLM" outputToken := rfl
  rw [hauth]
  simp only [hexec, hstat, if_true, hparse]
  rfl

/-- The Negotiate loop issues at most `MAX_ROUNDTRIPS - round` further
requests. -/
theorem negotiateLoop_sentCount (beh : SspiBehavior) (exec : Exec) (orig : Request)
    (spn : String) :
    ∀ k round input n, MAX_ROUNDTRIPS - round ≤ k →
      sentCount (negotiateLoop beh exec orig spn round input n).2.2 ≤ MAX_ROUNDTRIPS - round := by
  intro k
  induction k with
  | zero =>
    intro round input n hk
    have h5 : MAX_ROUNDTRIPS ≤ round := by omega
    rw [negotiateLoop_terminal _ _ _ _ _ _ _ h5]
    simp [sentCount]
  | succ k ih =>
    intro round input n hk
    by_cases h5 : MAX_ROUNDTRIPS ≤ round
    · rw [negotiateLoop_terminal _ _ _ _ _ _ _ h5]
      simp [sentCount]
    · have hge : 1 ≤ MAX_ROUNDTRIPS - round := by omega
      rw [negotiateLoop]
      simp only [h5, if_false]
      cases hin : beh.initCtx round spn input with
      | error code => simp [hin, sentCount, Event.isSent]
      | ok tok =>
        obtain ⟨outTok, flag⟩ := tok
        cases htc : tryClone orig with
        | none => simp [hin, htc, sentCount, Event.isSent]
        | some cloned =>
          cases hhv : headerValueFromBytes (strBytes "Negotiate " ++ b64encode outTok) with
          | none => simp [hin, htc, hhv, sentCount, Event.isSent]
          | some hv =>
            cases hex : exec n (insertHeader cloned "authorization" hv) with
            | error e =>
              simp [hin, htc, hhv, hex, sentCount, Event.isSent]
              omega
            | ok resp =>
              by_cases hst : resp.status = 401
              · cases hp : parse_www_authenticate resp.wwwAuthenticate with
                | none =>
                  simp [hin, htc, hhv, hex, hst, hp, sentCount, Event.isSent]
                  omega
                | some acc =>
                  obtain ⟨negTok, x2, x3⟩ := acc
                  cases negTok with
                  | none =>
                    simp [hin, htc, hhv, hex, hst, hp, sentCount, Event.isSent]
                    omega
                  | some inner =>
                    cases inner with
                    | none =>
                      simp [hin, htc, hhv, hex, hst, hp, sentCount, Event.isSent]
                      omega
                    | some t =>
                      have hrec := ih (round + 1) (some t) (n + 1) (by omega)
                      cases hL : negotiateLoop beh exec orig spn (round + 1) (some t) (n + 1) with
                      | mk r rest =>
                        obtain ⟨n', evs⟩ := rest
                        rw [hL] at hrec
                        simp [hin, htc, hhv, hex, hst, hp, hL, withEvents,
                          sentCount_append, sentCount, Event.isSent] at *
                        omega
              · by_cases hsc : isSuccess resp.status
                · cases hp : parse_www_authenticate resp.wwwAuthenticate <;>
                    (simp [hin, htc, hhv, hex, hst, hsc, hp, sentCount, Event.isSent]; omega)
                · simp [hin, htc, hhv, hex, hst, hsc, sentCount, Event.isSent]
                  omega

/-- The NTLM loop issues at most `MAX_ROUNDTRIPS - round` further
requests. -/
theorem ntlmLoop_sentCount (beh : SspiBehavior) (exec : Exec) (orig : Request)
    (spn : String) :
    ∀ k round input n, MAX_ROUNDTRIPS - round ≤ k →
      sentCount (ntlmLoop beh exec orig spn round input n).2.2 ≤ MAX_ROUNDTRIPS - round := by
  intro k
  induction k with
  | zero =>
    intro round input n hk
    have h5 : MAX_ROUNDTRIPS ≤ round := by omega
    rw [ntlmLoop_terminal _ _ _ _ _ _ _ h5]
    simp [sentCount]
  | succ k ih =>
    intro round input n hk
    by_cases h5 : MAX_ROUNDTRIPS ≤ round
    · rw [ntlmLoop_terminal _ _ _ _ _ _ _ h5]
      simp [sentCount]
    · have hge : 1 ≤ MAX_ROUNDTRIPS - round := by omega
      rw [ntlmLoop]
      simp only [h5, if_false]
      cases hin : beh.initCtx round spn input with
      | error code => simp [hin, sentCount, Event.isSent]
      | ok tok =>
        obtain ⟨outTok, flag⟩ := tok
        cases htc : tryClone orig with
        | none => simp [hin, htc, sentCount, Event.isSent]
        | some cloned =>
          cases hhv : headerValueFromBytes (strBytes "NTLM " ++ b64encode outTok) with
          | none => simp [hin, htc, hhv, sentCount, Event.isSent]
          | some hv =>
            cases hex : exec n (insertHeader cloned "authorization" hv) with
            | error e =>
              simp [hin, htc, hhv, hex, sentCount, Event.isSent]
              omega
            | ok resp =>
              by_cases hst : resp.status = 401
              · cases hp : parse_www_authenticate resp.wwwAuthenticate with
                | none =>
                  simp [hin, htc, hhv, hex, hst, hp, sentCount, Event.isSent]
                  omega
                | some acc =>
                  obtain ⟨x1, ntlmTok, x3⟩ := acc
                  cases ntlmTok with
                  | none =>
                    simp [hin, htc, hhv, hex, hst, hp, sentCount, Event.isSent]
                    omega
                  | some inner =>
                    cases inner with
                    | none =>
                      simp [hin, htc, hhv, hex, hst, hp, sentCount, Event.isSent]
                      omega
                    | some t =>
                      have hrec := ih (round + 1) (some t) (n + 1) (by omega)
                      cases hL : ntlmLoop beh exec orig spn (round + 1) (some t) (n + 1) with
                      | mk r rest =>
                        obtain ⟨n', evs⟩ := rest
                        rw [hL] at hrec
                        simp [hin, htc, hhv, hex, hst, hp, hL, withEvents,
                          sentCount_append, sentCount, Event.isSent] at *
                        omega
              · by_cases hsc : isSuccess resp.status
                · simp [hin, htc, hhv, hex, hst, hsc, sentCount, Event.isSent]
                  omega
                · simp [hin, htc, hhv, hex, hst, hsc, sentCount, Event.isSent]
                  omega

/-- `try_negotiate_auth` issues at most `MAX_ROUNDTRIPS` requests. -/
theorem try_negotiate_auth_sentCount (beh : SspiBehavior) (exec : Exec) (orig : Request)
    (spn : String) (creds : Credentials) (n : Nat) :
    sentCount (try_negotiate_auth beh exec orig spn creds n).2.2 ≤ MAX_ROUNDTRIPS := by
  unfold try_negotiate_auth
  cases beh.acquire creds with
  | error code => simp [sentCount, Event.isSent]
  | ok u =>
    have h := negotiateLoop_sentCount beh exec orig spn MAX_ROUNDTRIPS 0 none n (by omega)
    cases hL : negotiateLoop beh exec orig spn 0 none n with
    | mk r rest =>
      obtain ⟨n', evs⟩ := rest
      rw [hL] at h
      simp only [withEvents, sentCount_append] at *
      simp [sentCount, Event.isSent] at *
      omega

/-- `try_ntlm_auth` issues at most `MAX_ROUNDTRIPS` requests. -/
theorem try_ntlm_auth_sentCount (beh : SspiBehavior) (exec : Exec) (orig : Request)
    (spn : String) (creds : Credentials) (n : Nat) :
    sentCount (try_ntlm_auth beh exec orig spn creds n).2.2 ≤ MAX_ROUNDTRIPS := by
  unfold try_ntlm_auth
  cases beh.acquire creds with
  | error code => simp [sentCount, Event.isSent]
  | ok u =>
    have h := ntlmLoop_sentCount beh exec orig spn MAX_ROUNDTRIPS 0 none n (by omega)
    cases hL : ntlmLoop beh exec orig spn 0 none n with
    | mk r rest =>
      obtain ⟨n', evs⟩ := rest
      rw [hL] at h
      simp only [withEvents, sentCount_append] at *
      simp [sentCount, Event.isSent] at *
      omega

theorem basicStage_eq_specRun (prov : Provider) (exec : Exec) (orig : Request)
    (spn : String) (creds : Credentials) (hasBasic : Bool) (n : Nat) (acc : List Event) :
    basicStage exec orig creds hasBasic n acc =
      specRunCandidates prov exec orig spn creds
        (if hasBasic && creds.isExplicit then [.basicScheme] else []) n acc := by
  cases hb : hasBasic with
  | false => simp [basicStage, specRunCandidates]
  | true =>
    cases creds with
    | currentUser => simp [basicStage, specRunCandidates, Credentials.isExplicit]
    | explicit u p => simp [basicStage, specRunCandidates, Credentials.isExplicit]

theorem ntlmStage_eq_specRun (prov : Provider) (exec : Exec) (orig : Request)
    (spn : String) (creds : Credentials) (ntlmCh : Option (Option Bytes))
    (hasBasic : Bool) (n : Nat) (acc : List Event) :
    ntlmStage prov exec orig spn creds ntlmCh hasBasic n acc =
      specRunCandidates prov exec orig spn creds
        ((if ntlmCh.isSome then [.ntlmScheme] else []) ++
          (if hasBasic && creds.isExplicit then [.basicScheme] else [])) n acc := by
  by_cases hn : ntlmCh.isSome
  · simp only [ntlmStage, hn, if_true, List.cons_append, List.nil_append]
    cases hA : try_ntlm_auth prov.ntlm exec orig spn creds n with
    | mk res rest =>
      obtain ⟨n', evs⟩ := rest
      cases res with
      | ok r => simp [specRunCandidates, hA]
      | error e => simp [specRunCandidates, hA, basicStage_eq_specRun prov _ _ spn]
  · simp only [ntlmStage, hn, if_false, List.nil_append]
    exact basicStage_eq_specRun prov exec orig spn creds hasBasic n acc

theorem negotiateStage_eq_specRun (prov : Provider) (exec : Exec) (orig : Request)
    (spn : String) (creds : Credentials) (negCh ntlmCh : Option (Option Bytes))
    (hasBasic : Bool) (n : Nat) (acc : List Event) :
    negotiateStage prov exec orig spn creds negCh ntlmCh hasBasic n acc =
      specRunCandidates prov exec orig spn creds
        (specCandidates negCh ntlmCh hasBasic creds) n acc := by
  unfold specCandidates
  by_cases hg : negCh.isSome
  · simp only [negotiateStage, hg, if_true, List.cons_append, List.nil_append]
    cases hA : try_negotiate_auth prov.negotiate exec orig spn creds n with
    | mk res rest =>
      obtain ⟨n', evs⟩ := rest
      cases res with
      | ok r => simp [specRunCandidates, hA]
      | error e => simp [specRunCandidates, hA, ntlmStage_eq_specRun prov]
  · simp only [negotiateStage, hg, if_false, List.nil_append]
    exact ntlmStage_eq_specRun prov exec orig spn creds ntlmCh hasBasic n acc

/-- On a replayable request answered 401, the orchestrator runs the
fallback chain on the parsed challenges with the derived SPN. -/
theorem execute_with_negotiate_401 (prov : Provider) (exec : Exec) (req : Request)
    (creds : Credentials) (resp : Response) (negCh ntlmCh : Option (Option Bytes))
    (hasBasic : Bool) (host : String)
    (hrep : req.replayable = true)
    (hexec : exec 0 req = .ok resp)
    (hstat : resp.status = 401)
    (hparse : parse_www_authenticate resp.wwwAuthenticate = some (negCh, ntlmCh, hasBasic))
    (hhost : req.url.host = some host) :
    execute_with_negotiate prov exec req creds =
      negotiateStage prov exec req ("HTTP/" ++ host) creds negCh ntlmCh hasBasic 1
        [.cloneAttempt true, .sent req, .parsed] := by
  unfold execute_with_negotiate
  simp [tryClone, hrep, hexec, hstat, hparse, derive_spn, hhost]

/-! ### Claims -/

/-- C10: `parse_www_authenticate` is total — it returns a result for every
header-value list and never panics: in particular every fixed byte-offset
slice taken after a lowercased prefix check is in bounds, and every
`to_str`-accepted header value consists of bytes below 128 (pure ASCII), so
byte offsets are character boundaries. -/
theorem claim_C10 :
    (∀ headers : List Bytes, (parse_www_authenticate headers).isSome = true)
    ∧ (∀ v : Bytes, toStrOk v = true → ∀ b ∈ v, b < 128) := by
  constructor
  · exact parse_www_authenticate_isSome
  · intro v hv b hb
    unfold toStrOk at hv
    have h2 := List.all_eq_true.mp hv b hb
    unfold visibleAsciiOrTab at h2
    simp only [Bool.or_eq_true, beq_iff_eq, Bool.and_eq_true, decide_eq_true_eq] at h2
    omega

/-- Witness for C10 at a concrete header list and byte. -/
theorem claim_C10_witness :
    (parse_www_authenticate [strBytes "Negotiate"]).isSome = true ∧ 78 < 128 :=
  ⟨claim_C10.1 [strBytes "Negotiate"],
    claim_C10.2 (strBytes "Negotiate") (by decide) 78 (by decide)⟩

/-- C7: `derive_spn` returns exactly `"HTTP/" ++ host` for every URL with a
host — independent of scheme, port and path — and returns an error exactly
when the URL has no host. -/
theorem claim_C7 :
    (∀ (u : Url) (h : String), u.host = some h → derive_spn u = .ok ("HTTP/" ++ h))
    ∧ (∀ (u : Url) (s : String) (p : Option Nat) (q : String),
        derive_spn { u with scheme := s, port := p, path := q } = derive_spn u)
    ∧ (∀ u : Url, u.host = none → derive_spn u = .error .spnNoHost)
    ∧ (∀ (u : Url) (e : NegError), derive_spn u = .error e →
        u.host = none ∧ e = .spnNoHost) := by
  refine ⟨?_, ?_, ?_, ?_⟩
  · intro u h hh
    simp [derive_spn, hh]
  · intro u s p q
    simp [derive_spn]
  · intro u hh
    simp [derive_spn, hh]
  · intro u e he
    cases hh : u.host with
    | none =>
      simp [derive_spn, hh] at he
      exact ⟨rfl, he.symm⟩
    | some h => simp [derive_spn, hh] at he

/-- Witness for C7 at concrete URLs. -/
theorem claim_C7_witness :
    derive_spn ⟨"https", some "server.corp.com", some 8080, "/api"⟩ =
      .ok "HTTP/server.corp.com"
    ∧ derive_spn ⟨"data", none, none, "text/plain,x"⟩ = .error .spnNoHost
    ∧ (Url.mk "data" none none "text/plain,x").host = none := by
  refine ⟨?_, claim_C7.2.2.1 ⟨"data", none, none, "text/plain,x"⟩ rfl,
    (claim_C7.2.2.2 ⟨"data", none, none, "text/plain,x"⟩ .spnNoHost rfl).1⟩
  have h := claim_C7.1 ⟨"https", some "server.corp.com", some 8080, "/api"⟩
    "server.corp.com" rfl
  have e : ("HTTP/" ++ "server.corp.com" : String) = "HTTP/server.corp.com" := by decide
  rw [e] at h
  exact h

/-- C6: a request whose body cannot be cloned fails immediately with the
`NotReplayable` error; no request is ever executed. -/
theorem claim_C6 (prov : Provider) (exec : Exec) (req : Request) (creds : Credentials)
    (h : req.replayable = false) :
    execute_with_negotiate prov exec req creds =
      (.error .notReplayable, 0, [.cloneAttempt false])
    ∧ sentCount (execute_with_negotiate prov exec req creds).2.2 = 0 := by
  have h1 : execute_with_negotiate prov exec req creds =
      (.error .notReplayable, 0, [.cloneAttempt false]) := by
    unfold execute_with_negotiate
    simp [tryClone, h]
  refine ⟨h1, ?_⟩
  rw [h1]
  simp [sentCount, Event.isSent]

/-- Witness for C6: a concrete non-replayable request. -/
theorem claim_C6_witness :
    execute_with_negotiate
        ⟨⟨fun _ => .ok (), fun _ _ _ => .ok ([], true)⟩,
          ⟨fun _ => .ok (), fun _ _ _ => .ok ([], true)⟩⟩
        (fun _ _ => .ok ⟨200, []⟩)
        ⟨⟨"http", some "example.com", none, "/"⟩, [], false⟩ .currentUser =
      (.error .notReplayable, 0, [.cloneAttempt false]) :=
  (claim_C6 _ _ _ _ rfl).1

/-- C3 counterexample: the claim says a non-401 initial response involves
"no request cloning", but the template `try_clone` is performed before the
initial request even when the response is 200 — the trace of the run below
contains a clone event. -/
theorem claim_C3_counterexample :
    execute_with_negotiate
        ⟨⟨fun _ => .ok (), fun _ _ _ => .ok ([], true)⟩,
          ⟨fun _ => .ok (), fun _ _ _ => .ok ([], true)⟩⟩
        (fun _ _ => .ok ⟨200, []⟩)
        ⟨⟨"http", some "example.com", none, "/"⟩, [], true⟩ .currentUser =
      (.ok ⟨200, []⟩, 1,
        [.cloneAttempt true, .sent ⟨⟨"http", some "example.com", none, "/"⟩, [], true⟩])
    ∧ Event.cloneAttempt true ∈
        (execute_with_negotiate
          ⟨⟨fun _ => .ok (), fun _ _ _ => .ok ([], true)⟩,
            ⟨fun _ => .ok (), fun _ _ _ => .ok ([], true)⟩⟩
          (fun _ _ => .ok ⟨200, []⟩)
          ⟨⟨"http", some "example.com", none, "/"⟩, [], true⟩ .currentUser).2.2 := by
  have h1 : execute_with_negotiate
      ⟨⟨fun _ => .ok (), fun _ _ _ => .ok ([], true)⟩,
        ⟨fun _ => .ok (), fun _ _ _ => .ok ([], true)⟩⟩
      (fun _ _ => .ok ⟨200, []⟩)
      ⟨⟨"http", some "example.com", none, "/"⟩, [], true⟩ .currentUser =
      (.ok ⟨200, []⟩, 1,
        [.cloneAttempt true, .sent ⟨⟨"http", some "example.com", none, "/"⟩, [], true⟩]) := by
    unfold execute_with_negotiate
    simp [tryClone]
  refine ⟨h1, ?_⟩
  rw [h1]
  simp

/-- C3 (amended): for every replayable request whose initial response has
status ≠ 401, the orchestrator returns that response unchanged, calls the
request-execution capability exactly once, and performs no challenge
parsing and no provider calls; the one template `try_clone` still happens,
before the initial request. -/
theorem claim_C3 (prov : Provider) (exec : Exec) (req : Request) (creds : Credentials)
    (resp : Response)
    (hrep : req.replayable = true)
    (hexec : exec 0 req = .ok resp)
    (hstat : resp.status ≠ 401) :
    execute_with_negotiate prov exec req creds =
      (.ok resp, 1, [.cloneAttempt true, .sent req]) := by
  unfold execute_with_negotiate
  simp [tryClone, hrep, hexec, hstat]

/-- Witness for C3 at a concrete run with a 204 response. -/
theorem claim_C3_witness :
    execute_with_negotiate
        ⟨⟨fun _ => .ok (), fun _ _ _ => .ok ([], true)⟩,
          ⟨fun _ => .ok (), fun _ _ _ => .ok ([], true)⟩⟩
        (fun _ _ => .ok ⟨204, []⟩)
        ⟨⟨"http", some "example.com", none, "/"⟩, [], true⟩ .currentUser =
      (.ok ⟨204, []⟩, 1,
        [.cloneAttempt true, .sent ⟨⟨"http", some "example.com", none, "/"⟩, [], true⟩]) :=
  claim_C3 _ _ _ _ ⟨204, []⟩ rfl rfl (by decide)

/-- C5 counterexample: merging is NOT first-wins. A `Negotiate` occurrence
with a valid token followed by a bare `Negotiate` ends with the bare value
`Some(None)` — the later occurrence overwrote the earlier
`Some(Some [0,0,0])`. -/
theorem claim_C5_counterexample :
    parse_www_authenticate [strBytes "Negotiate AAAA"] =
      some (some (some [0, 0, 0]), none, false)
    ∧ parse_www_authenticate [strBytes "Negotiate AAAA", strBytes "Negotiate"] =
      some (some none, none, false) := by
  constructor <;> decide

/-- C5 (amended): every header value is parsed independently and merged by
overwriting — the LAST occurrence that parses for a scheme wins (an
occurrence whose token fails to decode leaves the field unchanged); the
specific three-value result is still order-independent: any ordering of
bare `Negotiate`, bare `NTLM` and `Basic realm="x"` yields
`negotiate = Some(None)`, `ntlm = Some(None)`, `hasBasic = true`. -/
theorem claim_C5 :
    (∀ l ∈ ([[strBytes "Negotiate", strBytes "NTLM", strBytes "Basic realm=\"x\""],
        [strBytes "Negotiate", strBytes "Basic realm=\"x\"", strBytes "NTLM"],
        [strBytes "NTLM", strBytes "Negotiate", strBytes "Basic realm=\"x\""],
        [strBytes "NTLM", strBytes "Basic realm=\"x\"", strBytes "Negotiate"],
        [strBytes "Basic realm=\"x\"", strBytes "Negotiate", strBytes "NTLM"],
        [strBytes "Basic realm=\"x\"", strBytes "NTLM", strBytes "Negotiate"]] :
        List (List Bytes)),
      parse_www_authenticate l = some (some none, some none, true))
    ∧ (∀ (hs : List Bytes) (acc : ChallengeSet),
        parse_www_authenticate hs = some acc →
        parse_www_authenticate (hs ++ [strBytes "Negotiate"]) =
          some (some none, acc.2.1, acc.2.2)) := by
  constructor
  · decide
  · intro hs acc hacc
    have hstep := @parseStep_bare_negotiate (strBytes "Negotiate") acc (by decide) (by decide)
    unfold parse_www_authenticate at *
    rw [parseList_append, hacc]
    simp [parseList, hstep]

/-- Witness for C5: one of the orderings, and a later bare `Negotiate`
overwriting an NTLM-only accumulator's negotiate field. -/
theorem claim_C5_witness :
    parse_www_authenticate
        [strBytes "Basic realm=\"x\"", strBytes "NTLM", strBytes "Negotiate"] =
      some (some none, some none, true)
    ∧ parse_www_authenticate ([strBytes "NTLM"] ++ [strBytes "Negotiate"]) =
      some (some none, some none, false) :=
  ⟨claim_C5.1 _ (by decide),
    claim_C5.2 [strBytes "NTLM"] (none, some none, false) (by decide)⟩

/-- C8 counterexample: a malformed token is NOT "treated as if no token were
present" — a token-less occurrence (bare `Negotiate`) yields `Some(None)`,
but the single malformed-token occurrence below leaves the negotiate field
`None` (scheme not recorded as offered at all). -/
theorem claim_C8_counterexample :
    b64decode (strBytes "####") = none
    ∧ parse_www_authenticate [strBytes "Negotiate ####"] = some (none, none, false)
    ∧ parse_www_authenticate [strBytes "Negotiate"] = some (some none, none, false) := by
  refine ⟨by decide, by decide, by decide⟩

/-- C8 (amended): an occurrence `scheme <token>` whose token base64-decodes
sets that scheme's field to `Some(Some(decoded)))`; an occurrence whose
token fails to decode is ignored entirely — the accumulated `ChallengeSet`
passes through unchanged — and parsing of the remaining header values
continues unaffected. -/
theorem claim_C8 :
    (∀ (acc : ChallengeSet) (v d : Bytes), toStrOk v = true →
        (strBytes "negotiate ").isPrefixOf (lowerBytes (trimBytes v)) = true →
        b64decode (trimBytes ((trimBytes v).drop 10)) = some d →
        parseStep acc v = some (some (some d), acc.2.1, acc.2.2))
    ∧ (∀ (acc : ChallengeSet) (v : Bytes), toStrOk v = true →
        (strBytes "negotiate ").isPrefixOf (lowerBytes (trimBytes v)) = true →
        b64decode (trimBytes ((trimBytes v).drop 10)) = none →
        parseStep acc v = some acc)
    ∧ (∀ (acc : ChallengeSet) (v d : Bytes), toStrOk v = true →
        eqIgnoreAsciiCase (trimBytes v) (strBytes "negotiate") = false →
        (strBytes "negotiate ").isPrefixOf (lowerBytes (trimBytes v)) = false →
        (strBytes "ntlm ").isPrefixOf (lowerBytes (trimBytes v)) = true →
        b64decode (trimBytes ((trimBytes v).drop 5)) = some d →
        parseStep acc v = some (acc.1, some (some d), acc.2.2))
    ∧ (∀ (acc : ChallengeSet) (v : Bytes), toStrOk v = true →
        eqIgnoreAsciiCase (trimBytes v) (strBytes "negotiate") = false →
        (strBytes "negotiate ").isPrefixOf (lowerBytes (trimBytes v)) = false →
        (strBytes "ntlm ").isPrefixOf (lowerBytes (trimBytes v)) = true →
        b64decode (trimBytes ((trimBytes v).drop 5)) = none →
        parseStep acc v = some acc)
    ∧ (∀ (v : Bytes) (xs ys : List Bytes), toStrOk v = true →
        (strBytes "negotiate ").isPrefixOf (lowerBytes (trimBytes v)) = true →
        b64decode (trimBytes ((trimBytes v).drop 10)) = none →
        parse_www_authenticate (xs ++ v :: ys) = parse_www_authenticate (xs ++ ys)) := by
  refine ⟨?_, ?_, ?_, ?_, ?_⟩
  · intro acc v d h1 h3 hd
    exact parseStep_negotiate_token acc h1 h3 hd
  · intro acc v h1 h3 hd
    exact parseStep_negotiate_malformed acc h1 h3 hd
  · intro acc v d h1 h2 h3 h5 hd
    exact parseStep_ntlm_token acc h1 h2 h3 h5 hd
  · intro acc v h1 h2 h3 h5 hd
    exact parseStep_ntlm_malformed acc h1 h2 h3 h5 hd
  · intro v xs ys h1 h3 hd
    exact parseList_splice (fun acc => parseStep_negotiate_malformed acc h1 h3 hd) _ xs ys

/-- Witness for C8 at concrete header values. -/
theorem claim_C8_witness :
    parseStep (none, none, false) (strBytes "Negotiate AAAA") =
      some (some (some [0, 0, 0]), none, false)
    ∧ parseStep (none, none, false) (strBytes "Negotiate %%%%") = some (none, none, false)
    ∧ parseStep (none, none, false) (strBytes "NTLM AAAA") =
      some (none, some (some [0, 0, 0]), false)
    ∧ parseStep (none, none, false) (strBytes "NTLM %%%%") = some (none, none, false)
    ∧ parse_www_authenticate ([strBytes "NTLM"] ++ strBytes "Negotiate %%%%" ::
        [strBytes "Basic realm=\"x\""]) =
      parse_www_authenticate ([strBytes "NTLM"] ++ [strBytes "Basic realm=\"x\""]) :=
  ⟨claim_C8.1 (none, none, false) (strBytes "Negotiate AAAA") [0, 0, 0]
      (by decide) (by decide) (by decide),
    claim_C8.2.1 (none, none, false) (strBytes "Negotiate %%%%")
      (by decide) (by decide) (by decide),
    claim_C8.2.2.1 (none, none, false) (strBytes "NTLM AAAA") [0, 0, 0]
      (by decide) (by decide) (by decide) (by decide) (by decide),
    claim_C8.2.2.2.1 (none, none, false) (strBytes "NTLM %%%%")
      (by decide) (by decide) (by decide) (by decide) (by decide),
    claim_C8.2.2.2.2 (strBytes "Negotiate %%%%") [strBytes "NTLM"]
      [strBytes "Basic realm=\"x\""] (by decide) (by decide) (by decide)⟩

/-- C9 counterexample: scheme-name matching for Basic is prefix-based, so
the value `Basicx` — whose scheme name `basicx` is not `negotiate`, `ntlm`
or `basic` — is NOT ignored: it sets `hasBasic`, and the result differs
from the result with the value absent. -/
theorem claim_C9_counterexample :
    parse_www_authenticate [strBytes "Basicx"] = some (none, none, true)
    ∧ parse_www_authenticate ([] : List Bytes) = some (none, none, false) := by
  constructor <;> decide

/-- C9 (amended): a header value whose trimmed, lowercased content is not
exactly `negotiate` or `ntlm`, does not start with `negotiate ` or `ntlm `,
and does not start with `basic`, is ignored: the resulting `ChallengeSet`
is identical to the one produced with that value absent. (Values whose
scheme name merely starts with `basic`, such as `Basicx`, are the
exception: they set `hasBasic`.) -/
theorem claim_C9 (v : Bytes) (xs ys : List Bytes)
    (h1 : toStrOk v = true)
    (h2 : eqIgnoreAsciiCase (trimBytes v) (strBytes "negotiate") = false)
    (h3 : (strBytes "negotiate ").isPrefixOf (lowerBytes (trimBytes v)) = false)
    (h4 : eqIgnoreAsciiCase (trimBytes v) (strBytes "ntlm") = false)
    (h5 : (strBytes "ntlm ").isPrefixOf (lowerBytes (trimBytes v)) = false)
    (h6 : (strBytes "basic").isPrefixOf (lowerBytes (trimBytes v)) = false) :
    parse_www_authenticate (xs ++ v :: ys) = parse_www_authenticate (xs ++ ys) :=
  parseList_splice (fun acc => parseStep_unrecognized acc h1 h2 h3 h4 h5 h6) _ xs ys

/-- Witness for C9: a `Bearer` challenge among recognized ones is
ignored. -/
theorem claim_C9_witness :
    parse_www_authenticate
        ([strBytes "Negotiate"] ++ strBytes "Bearer abc" :: [strBytes "Basic realm=\"x\""]) =
      parse_www_authenticate ([strBytes "Negotiate"] ++ [strBytes "Basic realm=\"x\""]) :=
  claim_C9 (strBytes "Bearer abc") [strBytes "Negotiate"] [strBytes "Basic realm=\"x\""]
    (by decide) (by decide) (by decide) (by decide) (by decide) (by decide)

/-- C4: the Basic fallback is gated on `Explicit` credentials — with
`CurrentUser` credentials and a server offering only Basic the call fails
with `AllMethodsFailed` and only the initial request is ever sent — and
when attempted it clones the template, sets
`Authorization: Basic base64(username ++ ":" ++ password)`, executes
exactly one request and returns that response verbatim without looping. -/
theorem claim_C4 (prov : Provider) (exec : Exec) (req : Request) (resp : Response)
    (host : String) (username password : Bytes)
    (hrep : req.replayable = true)
    (hexec : exec 0 req = .ok resp)
    (hstat : resp.status = 401)
    (hparse : parse_www_authenticate resp.wwwAuthenticate = some (none, none, true))
    (hhost : req.url.host = some host) :
    execute_with_negotiate prov exec req .currentUser =
      (.error .allMethodsFailed, 1, [.cloneAttempt true, .sent req, .parsed])
    ∧ (∀ resp2 : Response,
        exec 1 (insertHeader req "authorization"
            (strBytes "Basic " ++ b64encode (username ++ strBytes ":" ++ password))) =
          .ok resp2 →
        execute_with_negotiate prov exec req (.explicit username password) =
          (.ok resp2, 2,
            [.cloneAttempt true, .sent req, .parsed, .cloneAttempt true,
              .sent (insertHeader req "authorization"
                (strBytes "Basic " ++ b64encode (username ++ strBytes ":" ++ password)))])) := by
  constructor
  · rw [execute_with_negotiate_401 prov exec req .currentUser resp none none true host
      hrep hexec hstat hparse hhost]
    simp [negotiateStage, ntlmStage, basicStage]
  · intro resp2 hexec2
    rw [execute_with_negotiate_401 prov exec req (.explicit username password) resp none none
      true host hrep hexec hstat hparse hhost]
    have hb : negotiateStage prov exec req ("HTTP/" ++ host) (.explicit username password)
        none none true 1 [.cloneAttempt true, .sent req, .parsed] =
        withEvents [.cloneAttempt true, .sent req, .parsed]
          (try_basic_auth exec req username password 1) := by
      simp [negotiateStage, ntlmStage, basicStage]
    rw [hb]
    unfold try_basic_auth
    simp only [tryClone, hrep, if_true, headerValue_auth_ok "Basic " (by decide)]
    rw [hexec2]
    simp [withEvents]

/-- Witness for C4: server `basicOnlyExec`, credentials `u`/`p`; the Basic
payload is exactly `Basic dTpw`. -/
theorem claim_C4_witness :
    execute_with_negotiate sampleProv basicOnlyExec sampleReq .currentUser =
      (.error .allMethodsFailed, 1, [.cloneAttempt true, .sent sampleReq, .parsed])
    ∧ execute_with_negotiate sampleProv basicOnlyExec sampleReq (.explicit [117] [112]) =
      (.ok ⟨200, []⟩, 2,
        [.cloneAttempt true, .sent sampleReq, .parsed, .cloneAttempt true,
          .sent (insertHeader sampleReq "authorization"
            (strBytes "Basic " ++ b64encode ([117] ++ strBytes ":" ++ [112])))])
    ∧ strBytes "Basic " ++ b64encode ([117] ++ strBytes ":" ++ [112]) =
      strBytes "Basic dTpw" := by
  have h := claim_C4 sampleProv basicOnlyExec sampleReq ⟨401, [strBytes "Basic realm=\"x\""]⟩
    "example.com" [117] [112] rfl rfl rfl (by decide) rfl
  exact ⟨h.1, h.2 ⟨200, []⟩ rfl, by decide⟩

/-- C2 counterexample: with only Basic offered and explicit credentials,
a transport failure of the Basic attempt propagates verbatim — the call
does not fail with `AllMethodsFailed` even though every candidate scheme
was skipped or errored. -/
theorem claim_C2_counterexample :
    (execute_with_negotiate sampleProv basicOnlyBrokenExec sampleReq
        (.explicit [117] [112])).1 = .error (.transport "connection reset")
    ∧ NegError.transport "connection reset" ≠ NegError.allMethodsFailed := by
  constructor
  · rfl
  · decide

/-- C2 (amended): after a 401, the orchestrator behaves exactly like the
fallback chain run on the candidate list — Negotiate if offered, then NTLM
if offered, then Basic if offered and credentials are explicit — where a
Negotiate or NTLM attempt that errs internally falls through to the next
candidate, a Basic attempt is final and returns its result verbatim, and an
exhausted candidate list fails with `AllMethodsFailed`. -/
theorem claim_C2 (prov : Provider) (exec : Exec) (req : Request) (creds : Credentials)
    (resp : Response) (negCh ntlmCh : Option (Option Bytes)) (hasBasic : Bool)
    (host : String)
    (hrep : req.replayable = true)
    (hexec : exec 0 req = .ok resp)
    (hstat : resp.status = 401)
    (hparse : parse_www_authenticate resp.wwwAuthenticate = some (negCh, ntlmCh, hasBasic))
    (hhost : req.url.host = some host) :
    execute_with_negotiate prov exec req creds =
      specRunCandidates prov exec req ("HTTP/" ++ host) creds
        (specCandidates negCh ntlmCh hasBasic creds) 1
        [.cloneAttempt true, .sent req, .parsed] := by
  rw [execute_with_negotiate_401 prov exec req creds resp negCh ntlmCh hasBasic host
    hrep hexec hstat hparse hhost]
  exact negotiateStage_eq_specRun prov exec req _ creds negCh ntlmCh hasBasic 1 _

/-- Witness for C2 at a concrete Basic-only run. -/
theorem claim_C2_witness :
    execute_with_negotiate sampleProv basicOnlyExec sampleReq (.explicit [117] [112]) =
      specRunCandidates sampleProv basicOnlyExec sampleReq ("HTTP/" ++ "example.com")
        (.explicit [117] [112]) (specCandidates none none true (.explicit [117] [112])) 1
        [.cloneAttempt true, .sent sampleReq, .parsed] :=
  claim_C2 sampleProv basicOnlyExec sampleReq (.explicit [117] [112])
    ⟨401, [strBytes "Basic realm=\"x\""]⟩ none none true "example.com"
    rfl rfl rfl (by decide) rfl

/-- C1: both handshake loops start at round 0, advance by exactly one round
and one request per 401 that carries a fresh same-scheme challenge token,
fail with `TooManyRoundtrips` once the counter reaches
`MAX_ROUNDTRIPS = 5` without issuing any further request, and issue at most
5 authenticated requests per scheme attempt. -/
theorem claim_C1 :
    MAX_ROUNDTRIPS = 5
    ∧ (∀ (beh : SspiBehavior) (exec : Exec) (orig : Request) (spn : String)
        (creds : Credentials) (n : Nat), beh.acquire creds = .ok () →
        try_negotiate_auth beh exec orig spn creds n =
          withEvents [.acquire "Negotiate"] (negotiateLoop beh exec orig spn 0 none n))
    ∧ (∀ (beh : SspiBehavior) (exec : Exec) (orig : Request) (spn : String)
        (creds : Credentials) (n : Nat), beh.acquire creds = .ok () →
        try_ntlm_auth beh exec orig spn creds n =
          withEvents [.acquire "NTLM"] (ntlmLoop beh exec orig spn 0 none n))
    ∧ (∀ (beh : SspiBehavior) (exec : Exec) (orig : Request) (spn : String)
        (round : Nat) (input : Option Bytes) (n : Nat) (outputToken : Bytes) (flag : Bool)
        (resp : Response) (t : Bytes) (x2 : Option (Option Bytes)) (x3 : Bool),
        round < MAX_ROUNDTRIPS →
        beh.initCtx round spn input = .ok (outputToken, flag) →
        orig.replayable = true →
        exec n (authRequest orig "Negotiate" outputToken) = .ok resp →
        resp.status = 401 →
        parse_www_authenticate resp.wwwAuthenticate = some (some (some t), x2, x3) →
        negotiateLoop beh exec orig spn round input n =
          withEvents [.initContext "Negotiate", .cloneAttempt true,
              .sent (authRequest orig "Negotiate" outputToken), .parsed]
            (negotiateLoop beh exec orig spn (round + 1) (some t) (n + 1)))
    ∧ (∀ (beh : SspiBehavior) (exec : Exec) (orig : Request) (spn : String)
        (round : Nat) (input : Option Bytes) (n : Nat) (outputToken : Bytes) (flag : Bool)
        (resp : Response) (t : Bytes) (x1 : Option (Option Bytes)) (x3 : Bool),
        round < MAX_ROUNDTRIPS →
        beh.initCtx round spn input = .ok (outputToken, flag) →
        orig.replayable = true →
        exec n (authRequest orig "NTLM" outputToken) = .ok resp →
        resp.status = 401 →
        parse_www_authenticate resp.wwwAuthenticate = some (x1, some (some t), x3) →
        ntlmLoop beh exec orig spn round input n =
          withEvents [.initContext "NTLM", .cloneAttempt true,
              .sent (authRequest orig "NTLM" outputToken), .parsed]
            (ntlmLoop beh exec orig spn (round + 1) (some t) (n + 1)))
    ∧ (∀ (beh : SspiBehavior) (exec : Exec) (orig : Request) (spn : String)
        (round : Nat) (input : Option Bytes) (n : Nat), MAX_ROUNDTRIPS ≤ round →
        negotiateLoop beh exec orig spn round input n = (.error .tooManyRoundtrips, n, []))
    ∧ (∀ (beh : SspiBehavior) (exec : Exec) (orig : Request) (spn : String)
        (round : Nat) (input : Option Bytes) (n : Nat), MAX_ROUNDTRIPS ≤ round →
        ntlmLoop beh exec orig spn round input n = (.error .tooManyRoundtrips, n, []))
    ∧ (∀ (beh : SspiBehavior) (exec : Exec) (orig : Request) (spn : String)
        (creds : Credentials) (n : Nat),
        sentCount (try_negotiate_auth beh exec orig spn creds n).2.2 ≤ MAX_ROUNDTRIPS)
    ∧ (∀ (beh : SspiBehavior) (exec : Exec) (orig : Request) (spn : String)
        (creds : Credentials) (n : Nat),
        sentCount (try_ntlm_auth beh exec orig spn creds n).2.2 ≤ MAX_ROUNDTRIPS) := by
  refine ⟨rfl, ?_, ?_, ?_, ?_, ?_, ?_, ?_, ?_⟩
  · intro beh exec orig spn creds n hacq
    unfold try_negotiate_auth
    simp [hacq]
  · intro beh exec orig spn creds n hacq
    unfold try_ntlm_auth
    simp [hacq]
  · intro beh exec orig spn round input n outputToken flag resp t x2 x3 h1 h2 h3 h4 h5 h6
    exact negotiateLoop_step beh exec orig spn round input n outputToken flag resp t x2 x3
      h1 h2 h3 h4 h5 h6
  · intro beh exec orig spn round input n outputToken flag resp t x1 x3 h1 h2 h3 h4 h5 h6
    exact ntlmLoop_step beh exec orig spn round input n outputToken flag resp t x1 x3
      h1 h2 h3 h4 h5 h6
  · intro beh exec orig spn round input n h
    exact negotiateLoop_terminal beh exec orig spn round input n h
  · intro beh exec orig spn round input n h
    exact ntlmLoop_terminal beh exec orig spn round input n h
  · intro beh exec orig spn creds n
    exact try_negotiate_auth_sentCount beh exec orig spn creds n
  · intro beh exec orig spn creds n
    exact try_ntlm_auth_sentCount beh exec orig spn creds n

/-- Witness for C1: concrete instantiations of every conjunct, against
servers that keep issuing fresh challenge tokens. -/
theorem claim_C1_witness :
    MAX_ROUNDTRIPS = 5
    ∧ try_negotiate_auth sampleBeh negChallengeExec sampleReq "HTTP/example.com"
        .currentUser 0 =
      withEvents [.acquire "Negotiate"]
        (negotiateLoop sampleBeh negChallengeExec sampleReq "HTTP/example.com" 0 none 0)
    ∧ try_ntlm_auth sampleBeh ntlmChallengeExec sampleReq "HTTP/example.com"
        .currentUser 0 =
      withEvents [.acquire "NTLM"]
        (ntlmLoop sampleBeh ntlmChallengeExec sampleReq "HTTP/example.com" 0 none 0)
    ∧ negotiateLoop sampleBeh negChallengeExec sampleReq "HTTP/example.com" 0 none 0 =
      withEvents [.initContext "Negotiate", .cloneAttempt true,
          .sent (authRequest sampleReq "Negotiate" []), .parsed]
        (negotiateLoop sampleBeh negChallengeExec sampleReq "HTTP/example.com" 1
          (some [0, 0, 0]) 1)
    ∧ ntlmLoop sampleBeh ntlmChallengeExec sampleReq "HTTP/example.com" 0 none 0 =
      withEvents [.initContext "NTLM", .cloneAttempt true,
          .sent (authRequest sampleReq "NTLM" []), .parsed]
        (ntlmLoop sampleBeh ntlmChallengeExec sampleReq "HTTP/example.com" 1
          (some [0, 0, 0]) 1)
    ∧ negotiateLoop sampleBeh negChallengeExec sampleReq "HTTP/example.com" 5 none 5 =
      (.error .tooManyRoundtrips, 5, [])
    ∧ ntlmLoop sampleBeh ntlmChallengeExec sampleReq "HTTP/example.com" 5 none 5 =
      (.error .tooManyRoundtrips, 5, [])
    ∧ sentCount (try_negotiate_auth sampleBeh negChallengeExec sampleReq
        "HTTP/example.com" .currentUser 0).2.2 ≤ MAX_ROUNDTRIPS
    ∧ sentCount (try_ntlm_auth sampleBeh ntlmChallengeExec sampleReq
        "HTTP/example.com" .currentUser 0).2.2 ≤ MAX_ROUNDTRIPS :=
  ⟨claim_C1.1,
    claim_C1.2.1 sampleBeh negChallengeExec sampleReq "HTTP/example.com" .currentUser 0 rfl,
    claim_C1.2.2.1 sampleBeh ntlmChallengeExec sampleReq "HTTP/example.com" .currentUser 0 rfl,
    claim_C1.2.2.2.1 sampleBeh negChallengeExec sampleReq "HTTP/example.com" 0 none 0 [] true
      ⟨401, [strBytes "Negotiate AAAA"]⟩ [0, 0, 0] none false (by decide) rfl rfl rfl rfl
      (by decide),
    claim_C1.2.2.2.2.1 sampleBeh ntlmChallengeExec sampleReq "HTTP/example.com" 0 none 0 []
      true ⟨401, [strBytes "NTLM AAAA"]⟩ [0, 0, 0] none false (by decide) rfl rfl rfl rfl
      (by decide),
    claim_C1.2.2.2.2.2.1 sampleBeh negChallengeExec sampleReq "HTTP/example.com" 5 none 5
      (by decide),
    claim_C1.2.2.2.2.2.2.1 sampleBeh ntlmChallengeExec sampleReq "HTTP/example.com" 5 none 5
      (by decide),
    claim_C1.2.2.2.2.2.2.2.1 sampleBeh negChallengeExec sampleReq "HTTP/example.com"
      .currentUser 0,
    claim_C1.2.2.2.2.2.2.2.2 sampleBeh ntlmChallengeExec sampleReq "HTTP/example.com"
      .currentUser 0⟩

end Negotiate
